import Mathlib

/-!
# sdl-window.c : window lifecycle and frame rendering

A shallow embedding of `src/sdl-window.c`.  Every function of the C file is a
Lean function returning its C result together with the list of library calls
it issued, in order.  Results of the SDL / SDL_image calls are not computed by
the program; they are supplied by a record of answers (`Native`, `Decoder`),
over which the theorems quantify.

Pointers and library handles are natural numbers, `0` being `NULL`.
A `struct window *` is an `Option window`: `none` is the null pointer,
`some w` a pointer to a block whose fields currently read `w`.
-/

set_option linter.dupNamespace false

namespace SdlWindow

/-- A pointer or library handle; `0` is `NULL`. -/
abbrev Handle := Nat

/-- The C constant `INT_MAX` of `<limits.h>` for a 32-bit `int`. -/
def INT_MAX : Nat := 2147483647

/-- The SDL_image flag `IMG_INIT_JPG`. -/
def IMG_INIT_JPG : Nat := 1

/-- The value of `SDL_BYTESPERPIXEL(SDL_PIXELFORMAT_YUY2)`: the SDL macro
yields 2 for the packed 4:2:2 FOURCC formats. -/
def SDL_BYTESPERPIXEL_YUY2 : Nat := 2

/-- Modelled from the spec: `enum frame_format` is declared in a header that
is not part of the sources.  The two values the C file names are kept; every
other value an `enum` object can hold is `FRAME_FORMAT_OTHER tag`. -/
inductive frame_format where
  | FRAME_FORMAT_YUYV
  | FRAME_FORMAT_JPEG
  | FRAME_FORMAT_OTHER (tag : Nat)
  deriving DecidableEq, Repr

open frame_format

/-- Modelled from the spec: `struct frame` is declared in a header that is not
part of the sources.  Only the four fields read by `sdl-window.c` are kept:
buffer pointer, used length, width and height. -/
structure frame where
  frame_data : Handle
  frame_bytes_used : Nat
  width : Nat
  height : Nat
  deriving DecidableEq, Repr

/-- The record `struct window` (source lines 19-24). -/
structure window where
  format : frame_format
  window : Handle
  renderer : Handle
  texture : Handle
  deriving DecidableEq, Repr

/-- One call made by the program, with its arguments and, for calls whose
result the program inspects, the result that came back (last field). -/
inductive Call where
  | ec_malloc
  | free
  | SDL_Init (res : Int)
  | IMG_Init (res : Nat)
  | SDL_CreateWindow (width height : Int) (res : Handle)
  | SDL_CreateRenderer (win : Handle) (res : Handle)
  | SDL_CreateTexture (r : Handle) (width height : Int) (res : Handle)
  | SDL_DestroyTexture (t : Handle)
  | SDL_DestroyRenderer (r : Handle)
  | SDL_DestroyWindow (win : Handle)
  | IMG_Quit
  | SDL_Quit
  | SDL_UpdateTexture (t : Handle) (data : Handle) (pitch : Int)
  | SDL_RenderClear (r : Handle)
  | SDL_RenderCopy (r t : Handle)
  | SDL_RenderPresent (r : Handle)
  | SDL_RWFromConstMem (data : Handle) (len : Nat) (res : Handle)
  | IMG_LoadJPG_RW (ops : Handle) (res : Handle)
  | SDL_CreateTextureFromSurface (r s : Handle) (res : Handle)
  | SDL_FreeSurface (s : Handle)
  | SDL_FreeRW (ops : Handle)
  deriving DecidableEq, Repr

/-- Answers of the library calls made by `start_window`. -/
structure Native where
  SDL_Init : Int
  IMG_Init : Nat
  SDL_CreateWindow : Handle
  SDL_CreateRenderer : Handle
  SDL_CreateTexture : Handle
  deriving DecidableEq, Repr

/-- Answers of the library calls made by `sdl_render_jpeg`. -/
structure Decoder where
  SDL_RWFromConstMem : Handle
  IMG_LoadJPG_RW : Handle
  SDL_CreateTextureFromSurface : Handle
  deriving DecidableEq, Repr

/-- Reduction of an unsigned value to a machine word of `bits` bits. -/
def wrap (bits : Nat) (v : Nat) : Nat := v % 2 ^ bits

/-- Conversion of an unsigned value to a 32-bit C `int`, as performed by the
casts `(int) width` and by passing the pitch to `SDL_UpdateTexture`. -/
def to_int (v : Nat) : Int :=
  if v % 2 ^ 32 < 2 ^ 31 then ((v % 2 ^ 32 : Nat) : Int)
  else ((v % 2 ^ 32 : Nat) : Int) - 2 ^ 32

/-- Source lines 26-31. -/
def sdl_render_from_texture (r t : Handle) : List Call :=
  [Call.SDL_RenderClear r, Call.SDL_RenderCopy r t, Call.SDL_RenderPresent r]

/-- Source lines 33-52.  `bits` is the width of the unsigned type in which C
evaluates `f->width * f->height * bpp` (the type of the frame fields comes
from the missing header; 64 for `size_t` on LP64, 32 on ILP32). -/
def sdl_render_yuyv (bits : Nat) (w : window) (f : frame) : Bool × List Call :=
  let bpp := SDL_BYTESPERPIXEL_YUY2
  if wrap bits (wrap bits (f.width * f.height) * bpp) > f.frame_bytes_used then
    (false, [])
  else
    (true,
      Call.SDL_UpdateTexture w.texture f.frame_data (to_int (wrap bits (f.width * bpp)))
        :: sdl_render_from_texture w.renderer w.texture)

/-- The `fail:` label of `sdl_render_jpeg` (source lines 78-83). -/
def sdl_render_jpeg_fail (s ops : Handle) : List Call :=
  (if s ≠ 0 then [Call.SDL_FreeSurface s] else []) ++
  (if ops ≠ 0 then [Call.SDL_FreeRW ops] else [])

/-- Source lines 54-84. -/
def sdl_render_jpeg (d : Decoder) (w : window) (data : Handle) (len : Nat) :
    Bool × List Call :=
  let ops := d.SDL_RWFromConstMem
  let t0 := [Call.SDL_RWFromConstMem data len ops]
  if ops = 0 then (false, t0 ++ sdl_render_jpeg_fail 0 ops)
  else
    let s := d.IMG_LoadJPG_RW
    let t1 := t0 ++ [Call.IMG_LoadJPG_RW ops s]
    if s = 0 then (false, t1 ++ sdl_render_jpeg_fail s ops)
    else
      let t := d.SDL_CreateTextureFromSurface
      let t2 := t1 ++ [Call.SDL_CreateTextureFromSurface w.renderer s t]
      if t = 0 then (false, t2 ++ sdl_render_jpeg_fail s ops)
      else
        (true,
          t2 ++ [Call.SDL_FreeSurface s] ++ sdl_render_from_texture w.renderer t ++
            [Call.SDL_DestroyTexture t, Call.SDL_FreeRW ops])

/-- Source lines 86-99. -/
def sdl_close : Option window → List Call
  | none => []
  | some w =>
    (if w.texture ≠ 0 then [Call.SDL_DestroyTexture w.texture] else []) ++
    (if w.renderer ≠ 0 then [Call.SDL_DestroyRenderer w.renderer] else []) ++
    (if w.window ≠ 0 then [Call.SDL_DestroyWindow w.window] else []) ++
    (if w.format = FRAME_FORMAT_JPEG then [Call.IMG_Quit] else []) ++
    [Call.SDL_Quit]

/-- Source lines 106-156.  `supported` is the macro `FRAME_FORMAT_IS_SUPPORTED`
(declared in the missing header), `nat` the answers of the library, and `blk`
the contents of the block returned by `ec_malloc`, which the C code does not
set before use. -/
def start_window (supported : frame_format → Bool) (nat : Native) (blk : window)
    (width height : Nat) (format : frame_format) : Option window × List Call :=
  let w := blk
  let t0 := [Call.ec_malloc]
  if width = 0 ∨ height = 0 ∨ width > INT_MAX ∨ height > INT_MAX ∨ supported format = false then
    (none, t0 ++ [Call.free])
  else
    let w := { w with format := format }
    let t1 := t0 ++ [Call.SDL_Init nat.SDL_Init]
    if nat.SDL_Init ≠ 0 then (none, t1 ++ [Call.free])
    else
      let t2 := if format = FRAME_FORMAT_JPEG then t1 ++ [Call.IMG_Init nat.IMG_Init] else t1
      if format = FRAME_FORMAT_JPEG ∧ Nat.land nat.IMG_Init IMG_INIT_JPG ≠ IMG_INIT_JPG then
        (none, t2 ++ [Call.free])
      else
        let w := { w with window := nat.SDL_CreateWindow }
        let t3 := t2 ++ [Call.SDL_CreateWindow (to_int width) (to_int height) w.window]
        if w.window = 0 then (none, t3 ++ sdl_close (some w) ++ [Call.free])
        else
          let w := { w with renderer := nat.SDL_CreateRenderer }
          let t4 := t3 ++ [Call.SDL_CreateRenderer w.window w.renderer]
          if w.renderer = 0 then (none, t4 ++ sdl_close (some w) ++ [Call.free])
          else
            let w := { w with texture := 0 }
            if format = FRAME_FORMAT_YUYV then
              let w := { w with texture := nat.SDL_CreateTexture }
              let t5 := t4 ++
                [Call.SDL_CreateTexture w.renderer (to_int width) (to_int height) w.texture]
              if w.texture = 0 then (none, t5 ++ sdl_close (some w) ++ [Call.free])
              else (some w, t5)
            else (some w, t4)

/-- Source lines 158-178.  `bits` and `d` are passed on to the two format
paths. -/
def window_render_frame (bits : Nat) (d : Decoder) (w : Option window) (f : Option frame) :
    Bool × List Call :=
  match w, f with
  | some w, some f =>
    if f.frame_data = 0 ∨ f.frame_bytes_used = 0 then (false, [])
    else
      match w.format with
      | FRAME_FORMAT_YUYV => sdl_render_yuyv bits w f
      | FRAME_FORMAT_JPEG => sdl_render_jpeg d w f.frame_data f.frame_bytes_used
      | FRAME_FORMAT_OTHER _ => (false, [])
  | _, _ => (false, [])

/-- Source lines 180-186. -/
def destroy_window : Option window → List Call
  | none => []
  | some w => sdl_close (some w) ++ [Call.free]

/-- Modelled from the spec: the macro `FRAME_FORMAT_IS_SUPPORTED` is declared in
a header that is not part of the sources.  The spec lists exactly two supported
formats, the raw packed-pixel one and the compressed still-image one. -/
def FRAME_FORMAT_IS_SUPPORTED : frame_format → Bool
  | FRAME_FORMAT_YUYV => true
  | FRAME_FORMAT_JPEG => true
  | FRAME_FORMAT_OTHER _ => false

/-- Calls into SDL or SDL_image, as opposed to management of the control
block (`ec_malloc`, `free`). -/
def Call.isNative : Call → Bool
  | Call.ec_malloc => false
  | Call.free => false
  | _ => true

/-- Calls that draw on the render target: clear, copy, present. -/
def Call.touchesRenderTarget : Call → Bool
  | Call.SDL_RenderClear _ => true
  | Call.SDL_RenderCopy _ _ => true
  | Call.SDL_RenderPresent _ => true
  | _ => false

/-- Calls that upload pixels into a texture. -/
def Call.isUpload : Call → Bool
  | Call.SDL_UpdateTexture _ _ _ => true
  | _ => false

/-- The call that gives back what an acquiring call of `start_window`
obtained: quit for an init, destroy for a create (of the handle returned). -/
def release_of : Call → Option Call
  | Call.SDL_Init _ => some Call.SDL_Quit
  | Call.IMG_Init _ => some Call.IMG_Quit
  | Call.SDL_CreateWindow _ _ h => some (Call.SDL_DestroyWindow h)
  | Call.SDL_CreateRenderer _ h => some (Call.SDL_DestroyRenderer h)
  | Call.SDL_CreateTexture _ _ _ h => some (Call.SDL_DestroyTexture h)
  | _ => none

/-- A frame-scoped resource: memory stream, decoded image surface, texture. -/
inductive Res where
  | rwops (h : Handle)
  | surface (h : Handle)
  | texture (h : Handle)
  deriving DecidableEq, Repr

/-- The resource a call hands out, when it succeeds (non-null result). -/
def acquired : Call → Option Res
  | Call.SDL_RWFromConstMem _ _ h => if h ≠ 0 then some (Res.rwops h) else none
  | Call.IMG_LoadJPG_RW _ h => if h ≠ 0 then some (Res.surface h) else none
  | Call.SDL_CreateTextureFromSurface _ _ h => if h ≠ 0 then some (Res.texture h) else none
  | _ => none

/-- The resource a call gives back. -/
def released : Call → Option Res
  | Call.SDL_FreeRW h => some (Res.rwops h)
  | Call.SDL_FreeSurface h => some (Res.surface h)
  | Call.SDL_DestroyTexture h => some (Res.texture h)
  | _ => none

/-- Bookkeeping of outstanding resources along a list of calls, starting from
the resources `held`: an acquisition adds its resource, a release removes one
copy of its resource and is an error (`none`) when that resource is not
outstanding.  The result is the list of resources still outstanding. -/
def ledger (held : List Res) : List Call → Option (List Res)
  | [] => some held
  | c :: cs =>
    match acquired c with
    | some r => ledger (r :: held) cs
    | none =>
      match released c with
      | some r => if r ∈ held then ledger (held.erase r) cs else none
      | none => ledger held cs

/-- The calls of consecutive `window_render_frame` calls on one surface, one
per listed frame, each with its own library answers. -/
def render_frames (bits : Nat) (w : Option window) : List (Decoder × Option frame) → List Call
  | [] => []
  | df :: rest => (window_render_frame bits df.1 w df.2).2 ++ render_frames bits w rest

/-! ## Arithmetic of the size check -/

theorem wrap_le (bits v : Nat) : wrap bits v ≤ v := Nat.mod_le _ _

theorem wrap_of_lt (bits v : Nat) (h : v < 2 ^ bits) : wrap bits v = v :=
  Nat.mod_eq_of_lt h

theorem wrap_product_le (bits a b c : Nat) :
    wrap bits (wrap bits (a * b) * c) ≤ a * b * c :=
  le_trans (wrap_le _ _) (Nat.mul_le_mul_right c (wrap_le _ _))

theorem wrap_product_exact (bits a b c : Nat) (hc : 0 < c) (h : a * b * c < 2 ^ bits) :
    wrap bits (wrap bits (a * b) * c) = a * b * c := by
  have hab : a * b < 2 ^ bits := lt_of_le_of_lt (Nat.le_mul_of_pos_right _ hc) h
  rw [wrap_of_lt bits (a * b) hab, wrap_of_lt bits _ h]

/-- When the product fits the machine word, a short frame is rejected by the
raw path without any call. -/
theorem sdl_render_yuyv_rejects_short (bits : Nat) (w : window) (f : frame)
    (hfit : f.width * f.height * 2 < 2 ^ bits)
    (hshort : f.frame_bytes_used < f.width * f.height * 2) :
    sdl_render_yuyv bits w f = (false, []) := by
  unfold sdl_render_yuyv
  simp only [SDL_BYTESPERPIXEL_YUY2]
  rw [wrap_product_exact bits _ _ 2 (by decide) hfit]
  simp [hshort]

/-! ## Raw path -/

/-- C1 (fails on the code): on a 64-bit word the frame of width `2^32` and
height `2^31` with one used byte has `used < width * height * 2`, yet the
product wraps to zero, the size check passes, `window_render_frame` returns
true and `SDL_UpdateTexture` is called.  The same happens on a 32-bit word
for width `2^16` and height `2^15`. -/
theorem window_render_frame_yuyv_wrapped_check_passes :
    ((frame.mk 1 1 (2 ^ 32) (2 ^ 31)).frame_bytes_used
        < (frame.mk 1 1 (2 ^ 32) (2 ^ 31)).width * (frame.mk 1 1 (2 ^ 32) (2 ^ 31)).height * 2) ∧
    window_render_frame 64 (Decoder.mk 0 0 0) (some (window.mk FRAME_FORMAT_YUYV 11 12 13))
        (some (frame.mk 1 1 (2 ^ 32) (2 ^ 31)))
      = (true, [Call.SDL_UpdateTexture 13 1 0, Call.SDL_RenderClear 12,
                Call.SDL_RenderCopy 12 13, Call.SDL_RenderPresent 12]) ∧
    window_render_frame 32 (Decoder.mk 0 0 0) (some (window.mk FRAME_FORMAT_YUYV 11 12 13))
        (some (frame.mk 1 1 (2 ^ 16) (2 ^ 15)))
      = (true, [Call.SDL_UpdateTexture 13 1 131072, Call.SDL_RenderClear 12,
                Call.SDL_RenderCopy 12 13, Call.SDL_RenderPresent 12]) := by
  refine ⟨by decide, ?_, ?_⟩ <;>
    simp [window_render_frame, sdl_render_yuyv, sdl_render_from_texture, wrap, to_int,
      SDL_BYTESPERPIXEL_YUY2]

/-- C2: for a YUYV surface and a frame with non-null buffer and non-zero used
length, if the used length is at least `width * height * 2` (exact product,
equality included) then `window_render_frame` returns true and its calls are
exactly the texture update followed by clear, copy and present; this holds for
every word size. -/
theorem window_render_frame_yuyv_accepts (bits : Nat) (d : Decoder) (w : window) (f : frame)
    (hfmt : w.format = FRAME_FORMAT_YUYV) (hdata : f.frame_data ≠ 0)
    (hused : f.frame_bytes_used ≠ 0)
    (hlen : f.width * f.height * 2 ≤ f.frame_bytes_used) :
    window_render_frame bits d (some w) (some f) =
      (true, [Call.SDL_UpdateTexture w.texture f.frame_data (to_int (wrap bits (f.width * 2))),
              Call.SDL_RenderClear w.renderer,
              Call.SDL_RenderCopy w.renderer w.texture,
              Call.SDL_RenderPresent w.renderer]) := by
  have hle : wrap bits (wrap bits (f.width * f.height) * 2) ≤ f.frame_bytes_used :=
    le_trans (wrap_product_le bits _ _ 2) hlen
  simp [window_render_frame, hfmt, hdata, hused, sdl_render_yuyv, sdl_render_from_texture,
    SDL_BYTESPERPIXEL_YUY2, Nat.not_lt.mpr hle]

/-- Witness of C2: a 640x480 frame holding exactly 614400 bytes. -/
theorem window_render_frame_yuyv_accepts_witness :
    window_render_frame 64 (Decoder.mk 0 0 0) (some (window.mk FRAME_FORMAT_YUYV 11 12 13))
        (some (frame.mk 7 614400 640 480)) =
      (true, [Call.SDL_UpdateTexture 13 7 (to_int (wrap 64 (640 * 2))),
              Call.SDL_RenderClear 12, Call.SDL_RenderCopy 12 13, Call.SDL_RenderPresent 12]) :=
  window_render_frame_yuyv_accepts 64 (Decoder.mk 0 0 0) (window.mk FRAME_FORMAT_YUYV 11 12 13)
    (frame.mk 7 614400 640 480) rfl (by decide) (by decide) (by decide)

/-! ## Creation -/

/-- C3: when the width or the height is zero or exceeds `INT_MAX`, or the
format is not supported, `start_window` returns NULL and its only actions are
the allocation and the release of its control block: no SDL or SDL_image call
is made (no init, no creation, no teardown). -/
theorem start_window_rejects_arguments (supported : frame_format → Bool) (nat : Native)
    (blk : window) (width height : Nat) (format : frame_format)
    (hbad : width = 0 ∨ height = 0 ∨ width > INT_MAX ∨ height > INT_MAX ∨
      supported format = false) :
    (start_window supported nat blk width height format).1 = none ∧
    (start_window supported nat blk width height format).2 = [Call.ec_malloc, Call.free] ∧
    (∀ c ∈ (start_window supported nat blk width height format).2, c.isNative = false) := by
  have h : start_window supported nat blk width height format
      = (none, [Call.ec_malloc, Call.free]) := by
    unfold start_window
    simp only [if_pos hbad]
    rfl
  rw [h]
  refine ⟨rfl, rfl, ?_⟩
  intro c hc
  simp only [List.mem_cons, List.mem_singleton, List.not_mem_nil, or_false] at hc
  rcases hc with rfl | rfl <;> rfl

/-- Witness of C3: a width one above `INT_MAX`, every library call ready to
succeed. -/
theorem start_window_rejects_arguments_witness :
    (start_window FRAME_FORMAT_IS_SUPPORTED (Native.mk 0 1 11 12 13)
        (window.mk FRAME_FORMAT_YUYV 0 0 0) 2147483648 480 FRAME_FORMAT_YUYV).1 = none ∧
    (start_window FRAME_FORMAT_IS_SUPPORTED (Native.mk 0 1 11 12 13)
        (window.mk FRAME_FORMAT_YUYV 0 0 0) 2147483648 480 FRAME_FORMAT_YUYV).2
      = [Call.ec_malloc, Call.free] ∧
    (∀ c ∈ (start_window FRAME_FORMAT_IS_SUPPORTED (Native.mk 0 1 11 12 13)
        (window.mk FRAME_FORMAT_YUYV 0 0 0) 2147483648 480 FRAME_FORMAT_YUYV).2,
      c.isNative = false) :=
  start_window_rejects_arguments FRAME_FORMAT_IS_SUPPORTED (Native.mk 0 1 11 12 13)
    (window.mk FRAME_FORMAT_YUYV 0 0 0) 2147483648 480 FRAME_FORMAT_YUYV
    (Or.inr (Or.inr (Or.inl (by decide))))

/-- The shape of every successful `start_window`: the returned record and the
calls made, for a format other than YUYV and for YUYV. -/
theorem start_window_success (supported : frame_format → Bool) (nat : Native)
    (blk : window) (width height : Nat) (format : frame_format) (s : window)
    (hs : (start_window supported nat blk width height format).1 = some s) :
    nat.SDL_CreateWindow ≠ 0 ∧ nat.SDL_CreateRenderer ≠ 0 ∧
    ((format ≠ FRAME_FORMAT_YUYV ∧
        s = window.mk format nat.SDL_CreateWindow nat.SDL_CreateRenderer 0 ∧
        (start_window supported nat blk width height format).2 =
          [Call.ec_malloc, Call.SDL_Init nat.SDL_Init] ++
          (if format = FRAME_FORMAT_JPEG then [Call.IMG_Init nat.IMG_Init] else []) ++
          [Call.SDL_CreateWindow (to_int width) (to_int height) nat.SDL_CreateWindow,
           Call.SDL_CreateRenderer nat.SDL_CreateWindow nat.SDL_CreateRenderer]) ∨
     (format = FRAME_FORMAT_YUYV ∧ nat.SDL_CreateTexture ≠ 0 ∧
        s = window.mk format nat.SDL_CreateWindow nat.SDL_CreateRenderer
              nat.SDL_CreateTexture ∧
        (start_window supported nat blk width height format).2 =
          [Call.ec_malloc, Call.SDL_Init nat.SDL_Init,
           Call.SDL_CreateWindow (to_int width) (to_int height) nat.SDL_CreateWindow,
           Call.SDL_CreateRenderer nat.SDL_CreateWindow nat.SDL_CreateRenderer,
           Call.SDL_CreateTexture nat.SDL_CreateRenderer (to_int width) (to_int height)
             nat.SDL_CreateTexture])) := by
  unfold start_window at hs ⊢
  by_cases hbad : width = 0 ∨ height = 0 ∨ width > INT_MAX ∨ height > INT_MAX ∨
      supported format = false
  · simp [if_pos hbad] at hs
  · simp only [if_neg hbad] at hs ⊢
    by_cases hinit : nat.SDL_Init ≠ 0
    · simp [if_pos hinit] at hs
    · simp only [if_neg hinit] at hs ⊢
      by_cases himg : format = FRAME_FORMAT_JPEG ∧
          Nat.land nat.IMG_Init IMG_INIT_JPG ≠ IMG_INIT_JPG
      · simp [if_pos himg] at hs
      · simp only [if_neg himg] at hs ⊢
        by_cases hwin : nat.SDL_CreateWindow = 0
        · simp [hwin] at hs
        · simp only [if_neg hwin] at hs ⊢
          by_cases hren : nat.SDL_CreateRenderer = 0
          · simp [hren] at hs
          · simp only [if_neg hren] at hs ⊢
            by_cases hfmt : format = FRAME_FORMAT_YUYV
            · simp only [if_pos hfmt] at hs ⊢
              by_cases htex : nat.SDL_CreateTexture = 0
              · simp [htex] at hs
              · simp only [if_neg htex] at hs ⊢
                refine ⟨hwin, hren, Or.inr ⟨hfmt, htex, ?_, ?_⟩⟩
                · simpa using hs.symm
                · simp [hfmt]
            · simp only [if_neg hfmt] at hs ⊢
              refine ⟨hwin, hren, Or.inl ⟨hfmt, ?_, ?_⟩⟩
              · simpa using hs.symm
              · by_cases hj : format = FRAME_FORMAT_JPEG <;> simp [hj]

/-- C5: whenever `start_window` returns a surface, its format is the requested
one, its window and renderer handles are non-null, and its texture handle is
non-null exactly when the format is YUYV (so it is null for JPEG). -/
theorem start_window_surface_invariant (supported : frame_format → Bool) (nat : Native)
    (blk : window) (width height : Nat) (format : frame_format) (s : window)
    (hs : (start_window supported nat blk width height format).1 = some s) :
    s.format = format ∧ s.window ≠ 0 ∧ s.renderer ≠ 0 ∧
    (s.texture ≠ 0 ↔ format = FRAME_FORMAT_YUYV) ∧
    (format = FRAME_FORMAT_JPEG → s.texture = 0) := by
  obtain ⟨hwin, hren, h⟩ := start_window_success supported nat blk width height format s hs
  rcases h with ⟨hfmt, rfl, _⟩ | ⟨hfmt, htex, rfl, _⟩
  · exact ⟨rfl, hwin, hren, by simp [hfmt], fun _ => rfl⟩
  · refine ⟨rfl, hwin, hren, by simp [hfmt, htex], ?_⟩
    intro hj
    rw [hfmt] at hj
    exact absurd hj (by decide)

/-- Witness of C5: a successful JPEG creation over a block holding stale
non-null handles. -/
theorem start_window_surface_invariant_witness :
    (window.mk FRAME_FORMAT_JPEG 11 12 0).format = FRAME_FORMAT_JPEG ∧
    (window.mk FRAME_FORMAT_JPEG 11 12 0).window ≠ 0 ∧
    (window.mk FRAME_FORMAT_JPEG 11 12 0).renderer ≠ 0 ∧
    ((window.mk FRAME_FORMAT_JPEG 11 12 0).texture ≠ 0 ↔
      FRAME_FORMAT_JPEG = FRAME_FORMAT_YUYV) ∧
    (FRAME_FORMAT_JPEG = FRAME_FORMAT_JPEG → (window.mk FRAME_FORMAT_JPEG 11 12 0).texture = 0) :=
  start_window_surface_invariant FRAME_FORMAT_IS_SUPPORTED (Native.mk 0 1 11 12 13)
    (window.mk (FRAME_FORMAT_OTHER 9) 91 92 93) 640 480 FRAME_FORMAT_JPEG
    (window.mk FRAME_FORMAT_JPEG 11 12 0) (by decide)

/-! ## Rendering: failure leaves the render target alone -/

/-- Every outcome of the compressed path, call by call. -/
theorem sdl_render_jpeg_cases (d : Decoder) (w : window) (data : Handle) (len : Nat) :
    (d.SDL_RWFromConstMem = 0 ∧
      sdl_render_jpeg d w data len = (false, [Call.SDL_RWFromConstMem data len 0])) ∨
    (d.SDL_RWFromConstMem ≠ 0 ∧ d.IMG_LoadJPG_RW = 0 ∧
      sdl_render_jpeg d w data len =
        (false, [Call.SDL_RWFromConstMem data len d.SDL_RWFromConstMem,
                 Call.IMG_LoadJPG_RW d.SDL_RWFromConstMem 0,
                 Call.SDL_FreeRW d.SDL_RWFromConstMem])) ∨
    (d.SDL_RWFromConstMem ≠ 0 ∧ d.IMG_LoadJPG_RW ≠ 0 ∧ d.SDL_CreateTextureFromSurface = 0 ∧
      sdl_render_jpeg d w data len =
        (false, [Call.SDL_RWFromConstMem data len d.SDL_RWFromConstMem,
                 Call.IMG_LoadJPG_RW d.SDL_RWFromConstMem d.IMG_LoadJPG_RW,
                 Call.SDL_CreateTextureFromSurface w.renderer d.IMG_LoadJPG_RW 0,
                 Call.SDL_FreeSurface d.IMG_LoadJPG_RW,
                 Call.SDL_FreeRW d.SDL_RWFromConstMem])) ∨
    (d.SDL_RWFromConstMem ≠ 0 ∧ d.IMG_LoadJPG_RW ≠ 0 ∧ d.SDL_CreateTextureFromSurface ≠ 0 ∧
      sdl_render_jpeg d w data len =
        (true, [Call.SDL_RWFromConstMem data len d.SDL_RWFromConstMem,
                Call.IMG_LoadJPG_RW d.SDL_RWFromConstMem d.IMG_LoadJPG_RW,
                Call.SDL_CreateTextureFromSurface w.renderer d.IMG_LoadJPG_RW
                  d.SDL_CreateTextureFromSurface,
                Call.SDL_FreeSurface d.IMG_LoadJPG_RW,
                Call.SDL_RenderClear w.renderer,
                Call.SDL_RenderCopy w.renderer d.SDL_CreateTextureFromSurface,
                Call.SDL_RenderPresent w.renderer,
                Call.SDL_DestroyTexture d.SDL_CreateTextureFromSurface,
                Call.SDL_FreeRW d.SDL_RWFromConstMem])) := by
  by_cases h1 : d.SDL_RWFromConstMem = 0
  · left
    exact ⟨h1, by simp [sdl_render_jpeg, sdl_render_jpeg_fail, h1]⟩
  · right
    by_cases h2 : d.IMG_LoadJPG_RW = 0
    · left
      exact ⟨h1, h2, by simp [sdl_render_jpeg, sdl_render_jpeg_fail, h1, h2]⟩
    · right
      by_cases h3 : d.SDL_CreateTextureFromSurface = 0
      · left
        exact ⟨h1, h2, h3, by simp [sdl_render_jpeg, sdl_render_jpeg_fail, h1, h2, h3]⟩
      · right
        exact ⟨h1, h2, h3, by
          simp [sdl_render_jpeg, sdl_render_from_texture, h1, h2, h3]⟩

/-- A failed raw-path call has made no call at all. -/
theorem sdl_render_yuyv_false_trace (bits : Nat) (w : window) (f : frame)
    (h : (sdl_render_yuyv bits w f).1 = false) : (sdl_render_yuyv bits w f).2 = [] := by
  unfold sdl_render_yuyv at h ⊢
  by_cases hn : wrap bits (wrap bits (f.width * f.height) * SDL_BYTESPERPIXEL_YUY2)
      > f.frame_bytes_used
  · simp [hn]
  · simp [hn] at h

/-- A failed compressed-path call has not drawn on the render target. -/
theorem sdl_render_jpeg_false_trace (d : Decoder) (w : window) (data : Handle) (len : Nat)
    (h : (sdl_render_jpeg d w data len).1 = false) :
    ∀ c ∈ (sdl_render_jpeg d w data len).2, c.touchesRenderTarget = false := by
  rcases sdl_render_jpeg_cases d w data len with
    ⟨_, e⟩ | ⟨_, _, e⟩ | ⟨_, _, _, e⟩ | ⟨_, _, _, e⟩
  all_goals rw [e] at h ⊢
  all_goals first
    | (simp at h; done)
    | (intro c hc
       simp only [List.mem_cons, List.mem_singleton, List.not_mem_nil, or_false] at hc
       rcases hc with rfl | rfl | rfl | rfl | rfl <;> rfl)

/-- C9: if `window_render_frame` returns false then none of its calls is a
clear, copy or present on the render target.  Moreover a null surface, a null
frame, a null buffer pointer, a zero used length and a surface format that is
neither YUYV nor JPEG each return false with no call at all, and so does a
raw-path call that returns false. -/
theorem window_render_frame_atomic (bits : Nat) (d : Decoder) (w : Option window)
    (f : Option frame) :
    ((window_render_frame bits d w f).1 = false →
      ∀ c ∈ (window_render_frame bits d w f).2, c.touchesRenderTarget = false) ∧
    (w = none → window_render_frame bits d w f = (false, [])) ∧
    (f = none → window_render_frame bits d w f = (false, [])) ∧
    (∀ f0, f = some f0 → f0.frame_data = 0 ∨ f0.frame_bytes_used = 0 →
      window_render_frame bits d w f = (false, [])) ∧
    (∀ w0 tag, w = some w0 → w0.format = FRAME_FORMAT_OTHER tag →
      window_render_frame bits d w f = (false, [])) ∧
    (∀ w0, w = some w0 → w0.format = FRAME_FORMAT_YUYV →
      (window_render_frame bits d w f).1 = false →
      (window_render_frame bits d w f).2 = []) := by
  refine ⟨?_, ?_, ?_, ?_, ?_, ?_⟩
  · intro h
    cases w with
    | none => simp [window_render_frame]
    | some w0 =>
      cases f with
      | none => simp [window_render_frame]
      | some f0 =>
        unfold window_render_frame at h ⊢
        by_cases hg : f0.frame_data = 0 ∨ f0.frame_bytes_used = 0
        · simp [hg]
        · simp only [if_neg hg] at h ⊢
          cases hfmt : w0.format with
          | FRAME_FORMAT_YUYV =>
            simp only [hfmt] at h ⊢
            rw [sdl_render_yuyv_false_trace bits w0 f0 h]
            simp
          | FRAME_FORMAT_JPEG =>
            simp only [hfmt] at h ⊢
            exact sdl_render_jpeg_false_trace d w0 f0.frame_data f0.frame_bytes_used h
          | FRAME_FORMAT_OTHER tag => simp
  · rintro rfl
    simp [window_render_frame]
  · rintro rfl
    cases w <;> simp [window_render_frame]
  · rintro f0 rfl hg
    cases w <;> simp [window_render_frame, hg]
  · rintro w0 tag rfl hfmt
    cases f with
    | none => simp [window_render_frame]
    | some f0 =>
      unfold window_render_frame
      by_cases hg : f0.frame_data = 0 ∨ f0.frame_bytes_used = 0
      · simp [hg]
      · simp [hg, hfmt]
  · rintro w0 rfl hfmt h
    cases f with
    | none => simp [window_render_frame]
    | some f0 =>
      unfold window_render_frame at h ⊢
      by_cases hg : f0.frame_data = 0 ∨ f0.frame_bytes_used = 0
      · simp [hg]
      · simp only [if_neg hg, hfmt] at h ⊢
        exact sdl_render_yuyv_false_trace bits w0 f0 h

/-- Witness of C9: a JPEG frame whose decoding fails after the memory stream
was opened. -/
theorem window_render_frame_atomic_witness :
    (window_render_frame 64 (Decoder.mk 21 0 0) (some (window.mk FRAME_FORMAT_JPEG 11 12 0))
        (some (frame.mk 7 100 640 480))).1 = false ∧
    (∀ c ∈ (window_render_frame 64 (Decoder.mk 21 0 0)
        (some (window.mk FRAME_FORMAT_JPEG 11 12 0)) (some (frame.mk 7 100 640 480))).2,
      c.touchesRenderTarget = false) :=
  ⟨by decide,
   (window_render_frame_atomic 64 (Decoder.mk 21 0 0)
      (some (window.mk FRAME_FORMAT_JPEG 11 12 0)) (some (frame.mk 7 100 640 480))).1
      (by decide)⟩

/-! ## Teardown -/

/-- The teardown calls of a non-null surface are all library calls. -/
theorem sdl_close_filter_isNative (w : window) :
    (sdl_close (some w)).filter Call.isNative = sdl_close (some w) := by
  rw [List.filter_eq_self]
  intro c hc
  simp only [sdl_close, List.mem_append, List.mem_singleton] at hc
  rcases hc with (((hc | hc) | hc) | hc) | hc
  · split_ifs at hc
    · simp only [List.mem_singleton] at hc
      subst hc
      rfl
    · simp at hc
  · split_ifs at hc
    · simp only [List.mem_singleton] at hc
      subst hc
      rfl
    · simp at hc
  · split_ifs at hc
    · simp only [List.mem_singleton] at hc
      subst hc
      rfl
    · simp at hc
  · split_ifs at hc
    · simp only [List.mem_singleton] at hc
      subst hc
      rfl
    · simp at hc
  · subst hc
    rfl

/-- C6: for a null surface `destroy_window` makes no call.  For a non-null
surface its library calls are, in this order: destroy the texture iff the
texture handle is non-null, destroy the renderer iff the renderer handle is
non-null, destroy the window iff the window handle is non-null, `IMG_Quit` iff
the format is JPEG, then `SDL_Quit`; the only call after them is the `free` of
the control block.  For a surface returned by `start_window` this sequence is
the reverse of the acquisitions `start_window` made, each replaced by its
release. -/
theorem destroy_window_order (w : window) (supported : frame_format → Bool) (nat : Native)
    (blk : window) (width height : Nat) (format : frame_format) :
    destroy_window none = [] ∧
    (destroy_window (some w)).filter Call.isNative =
      (if w.texture ≠ 0 then [Call.SDL_DestroyTexture w.texture] else []) ++
      (if w.renderer ≠ 0 then [Call.SDL_DestroyRenderer w.renderer] else []) ++
      (if w.window ≠ 0 then [Call.SDL_DestroyWindow w.window] else []) ++
      (if w.format = FRAME_FORMAT_JPEG then [Call.IMG_Quit] else []) ++
      [Call.SDL_Quit] ∧
    destroy_window (some w) = (destroy_window (some w)).filter Call.isNative ++ [Call.free] ∧
    (∀ s, (start_window supported nat blk width height format).1 = some s →
      (destroy_window (some s)).filter Call.isNative =
        ((start_window supported nat blk width height format).2.filterMap release_of).reverse) := by
  have hf : ∀ v : window,
      (destroy_window (some v)).filter Call.isNative = sdl_close (some v) := by
    intro v
    simp only [destroy_window, List.filter_append, sdl_close_filter_isNative]
    simp [Call.isNative]
  refine ⟨rfl, ?_, ?_, ?_⟩
  · rw [hf]
    rfl
  · rw [hf]
    rfl
  · intro s hs
    rw [hf]
    obtain ⟨hwin, hren, h⟩ := start_window_success supported nat blk width height format s hs
    rcases h with ⟨hfmt, rfl, ht⟩ | ⟨hfmt, htex, rfl, ht⟩
    · rw [ht]
      by_cases hj : format = FRAME_FORMAT_JPEG
      · simp [sdl_close, release_of, hwin, hren, hj]
      · simp [sdl_close, release_of, hwin, hren, hj]
    · rw [ht]
      simp [sdl_close, release_of, hwin, hren, htex, hfmt]

/-- Witness of C6: the surface of a successful YUYV creation. -/
theorem destroy_window_order_witness :
    (destroy_window (some (window.mk FRAME_FORMAT_YUYV 11 12 13))).filter Call.isNative =
      ((start_window FRAME_FORMAT_IS_SUPPORTED (Native.mk 0 0 11 12 13)
          (window.mk (FRAME_FORMAT_OTHER 9) 91 92 93) 640 480
          FRAME_FORMAT_YUYV).2.filterMap release_of).reverse :=
  (destroy_window_order (window.mk FRAME_FORMAT_YUYV 11 12 13) FRAME_FORMAT_IS_SUPPORTED
      (Native.mk 0 0 11 12 13) (window.mk (FRAME_FORMAT_OTHER 9) 91 92 93) 640 480
      FRAME_FORMAT_YUYV).2.2.2
    (window.mk FRAME_FORMAT_YUYV 11 12 13) (by decide)

/-- The control block is freed exactly once by `destroy_window` on a non-null
pointer, and `SDL_Quit` is called exactly once, whatever the block reads. -/
theorem destroy_window_count_free (v : window) :
    (destroy_window (some v)).count Call.free = 1 ∧
    (destroy_window (some v)).count Call.SDL_Quit = 1 := by
  constructor <;>
    simp only [destroy_window, sdl_close] <;>
    split_ifs <;> simp

/-- C7 (fails on the code): `destroy_window` neither clears the handles nor can
it clear the caller's pointer, so a second call on the surface returned by a
successful YUYV `start_window` is not a no-op.  The second call reads a block
that was already freed; whatever that block then reads (`stale`), the second
call makes calls, and over the two calls `SDL_Quit` is called twice and the
control block is freed twice. -/
theorem destroy_window_twice_releases_twice :
    (start_window FRAME_FORMAT_IS_SUPPORTED (Native.mk 0 0 11 12 13)
        (window.mk FRAME_FORMAT_YUYV 0 0 0) 640 480 FRAME_FORMAT_YUYV).1
      = some (window.mk FRAME_FORMAT_YUYV 11 12 13) ∧
    (∀ stale : window,
      destroy_window (some stale) ≠ [] ∧
      (destroy_window (some (window.mk FRAME_FORMAT_YUYV 11 12 13)) ++
        destroy_window (some stale)).count Call.SDL_Quit = 2 ∧
      (destroy_window (some (window.mk FRAME_FORMAT_YUYV 11 12 13)) ++
        destroy_window (some stale)).count Call.free = 2) := by
  refine ⟨by decide, ?_⟩
  intro stale
  refine ⟨?_, ?_, ?_⟩
  · simp [destroy_window]
  · rw [List.count_append, (destroy_window_count_free _).2, (destroy_window_count_free _).2]
  · rw [List.count_append, (destroy_window_count_free _).1, (destroy_window_count_free _).1]

/-- C7 as amended: on the surface returned by a successful `start_window`, one
call of `destroy_window` releases the window, the renderer, the texture (for
YUYV) and the control block, and repeats no call, so each is released exactly
once.  `destroy_window` is a no-op on the null pointer only: on any non-null
pointer, whatever the block reads, it calls `SDL_Quit` and frees the block. -/
theorem destroy_window_once (supported : frame_format → Bool) (nat : Native)
    (blk : window) (width height : Nat) (format : frame_format) (s : window)
    (hs : (start_window supported nat blk width height format).1 = some s) :
    (destroy_window (some s)).Nodup ∧
    Call.SDL_DestroyWindow s.window ∈ destroy_window (some s) ∧
    Call.SDL_DestroyRenderer s.renderer ∈ destroy_window (some s) ∧
    (format = FRAME_FORMAT_YUYV → Call.SDL_DestroyTexture s.texture ∈ destroy_window (some s)) ∧
    Call.free ∈ destroy_window (some s) ∧
    destroy_window none = [] ∧
    (∀ stale : window, Call.SDL_Quit ∈ destroy_window (some stale) ∧
      Call.free ∈ destroy_window (some stale)) := by
  obtain ⟨hwin, hren, h⟩ := start_window_success supported nat blk width height format s hs
  refine ⟨?_, ?_, ?_, ?_, ?_, rfl, ?_⟩
  · rcases h with ⟨hfmt, rfl, _⟩ | ⟨hfmt, htex, rfl, _⟩
    · by_cases hj : format = FRAME_FORMAT_JPEG <;>
        simp [destroy_window, sdl_close, hwin, hren, hj]
    · simp [destroy_window, sdl_close, hwin, hren, htex, hfmt]
  · rcases h with ⟨hfmt, rfl, _⟩ | ⟨hfmt, htex, rfl, _⟩ <;>
      simp [destroy_window, sdl_close, hwin]
  · rcases h with ⟨hfmt, rfl, _⟩ | ⟨hfmt, htex, rfl, _⟩ <;>
      simp [destroy_window, sdl_close, hren]
  · intro hy
    rcases h with ⟨hfmt, rfl, _⟩ | ⟨hfmt, htex, rfl, _⟩
    · exact absurd hy hfmt
    · simp [destroy_window, sdl_close, htex]
  · simp [destroy_window]
  · intro stale
    simp [destroy_window, sdl_close]

/-- Witness of the amended C7: the surface of a successful YUYV creation. -/
theorem destroy_window_once_witness :
    (destroy_window (some (window.mk FRAME_FORMAT_YUYV 11 12 13))).Nodup ∧
    Call.SDL_DestroyWindow 11 ∈ destroy_window (some (window.mk FRAME_FORMAT_YUYV 11 12 13)) ∧
    Call.SDL_DestroyRenderer 12 ∈ destroy_window (some (window.mk FRAME_FORMAT_YUYV 11 12 13)) ∧
    Call.SDL_DestroyTexture 13 ∈ destroy_window (some (window.mk FRAME_FORMAT_YUYV 11 12 13)) ∧
    Call.free ∈ destroy_window (some (window.mk FRAME_FORMAT_YUYV 11 12 13)) := by
  have h := destroy_window_once FRAME_FORMAT_IS_SUPPORTED (Native.mk 0 0 11 12 13)
    (window.mk FRAME_FORMAT_YUYV 0 0 0) 640 480 FRAME_FORMAT_YUYV
    (window.mk FRAME_FORMAT_YUYV 11 12 13) (by decide)
  exact ⟨h.1, h.2.1, h.2.2.1, h.2.2.2.1 rfl, h.2.2.2.2.1⟩

/-! ## Compressed path: frame-scoped resources -/

theorem ledger_append (t1 t2 : List Call) (held : List Res) :
    ledger held (t1 ++ t2) = (ledger held t1).bind (fun h => ledger h t2) := by
  induction t1 generalizing held with
  | nil => rfl
  | cons c cs ih =>
    simp only [List.cons_append, ledger]
    cases acquired c with
    | some r => exact ih _
    | none =>
      cases released c with
      | some r =>
        by_cases hr : r ∈ held
        · simp only [if_pos hr]
          exact ih _
        · simp only [if_neg hr]
          rfl
      | none => exact ih _

/-- One compressed-path call leaves the outstanding resources as they were. -/
theorem sdl_render_jpeg_ledger (d : Decoder) (w : window) (data : Handle) (len : Nat)
    (held : List Res) : ledger held (sdl_render_jpeg d w data len).2 = some held := by
  rcases sdl_render_jpeg_cases d w data len with
    ⟨h1, e⟩ | ⟨h1, h2, e⟩ | ⟨h1, h2, h3, e⟩ | ⟨h1, h2, h3, e⟩
  · rw [e]
    simp [ledger, acquired, released]
  · rw [e]
    simp [ledger, acquired, released, h1]
  · rw [e]
    simp [ledger, acquired, released, h1, h2]
  · rw [e]
    simp [ledger, acquired, released, h1, h2, h3]

/-- One raw-path call leaves the outstanding resources as they were. -/
theorem sdl_render_yuyv_ledger (bits : Nat) (w : window) (f : frame) (held : List Res) :
    ledger held (sdl_render_yuyv bits w f).2 = some held := by
  unfold sdl_render_yuyv
  by_cases hn : wrap bits (wrap bits (f.width * f.height) * SDL_BYTESPERPIXEL_YUY2)
      > f.frame_bytes_used
  · simp [hn, ledger]
  · simp [hn, ledger, acquired, released, sdl_render_from_texture]

/-- One render call leaves the outstanding resources as they were. -/
theorem window_render_frame_ledger (bits : Nat) (d : Decoder) (w : Option window)
    (f : Option frame) (held : List Res) :
    ledger held (window_render_frame bits d w f).2 = some held := by
  cases w with
  | none => simp [window_render_frame, ledger]
  | some w0 =>
    cases f with
    | none => simp [window_render_frame, ledger]
    | some f0 =>
      unfold window_render_frame
      by_cases hg : f0.frame_data = 0 ∨ f0.frame_bytes_used = 0
      · simp [hg, ledger]
      · simp only [if_neg hg]
        cases hfmt : w0.format with
        | FRAME_FORMAT_YUYV => exact sdl_render_yuyv_ledger bits w0 f0 held
        | FRAME_FORMAT_JPEG =>
          exact sdl_render_jpeg_ledger d w0 f0.frame_data f0.frame_bytes_used held
        | FRAME_FORMAT_OTHER tag => simp [ledger]

/-- Any number of consecutive render calls leaves the outstanding resources as
they were. -/
theorem render_frames_ledger (bits : Nat) (w : Option window)
    (frames : List (Decoder × Option frame)) (held : List Res) :
    ledger held (render_frames bits w frames) = some held := by
  induction frames with
  | nil => rfl
  | cons df rest ih =>
    simp only [render_frames]
    rw [ledger_append, window_render_frame_ledger]
    exact ih

/-- C8: on a JPEG surface, whatever the outcome of `sdl_render_jpeg` (memory
stream refused, decoding failed, texture creation failed, full success), every
resource the call acquired (memory stream, decoded surface, one-shot texture)
has been released when it returns, no release is repeated and none is of a
resource not acquired; the call returns true exactly when all three
acquisitions succeeded; and after any number of consecutive render calls no
frame-scoped resource is outstanding. -/
theorem sdl_render_jpeg_releases_all (bits : Nat) (w : window)
    (hfmt : w.format = FRAME_FORMAT_JPEG) :
    (∀ d data len, ledger [] (sdl_render_jpeg d w data len).2 = some []) ∧
    (∀ d data len, ((sdl_render_jpeg d w data len).2.filterMap released).Nodup) ∧
    (∀ d data len, (sdl_render_jpeg d w data len).1 = true ↔
      (d.SDL_RWFromConstMem ≠ 0 ∧ d.IMG_LoadJPG_RW ≠ 0 ∧
        d.SDL_CreateTextureFromSurface ≠ 0)) ∧
    (∀ d (f : frame), f.frame_data ≠ 0 → f.frame_bytes_used ≠ 0 →
      window_render_frame bits d (some w) (some f) =
        sdl_render_jpeg d w f.frame_data f.frame_bytes_used) ∧
    (∀ frames : List (Decoder × Option frame),
      ledger [] (render_frames bits (some w) frames) = some []) := by
  refine ⟨?_, ?_, ?_, ?_, ?_⟩
  · intro d data len
    exact sdl_render_jpeg_ledger d w data len []
  · intro d data len
    rcases sdl_render_jpeg_cases d w data len with
      ⟨h1, e⟩ | ⟨h1, h2, e⟩ | ⟨h1, h2, h3, e⟩ | ⟨h1, h2, h3, e⟩
    all_goals rw [e]
    all_goals simp [released]
  · intro d data len
    rcases sdl_render_jpeg_cases d w data len with
      ⟨h1, e⟩ | ⟨h1, h2, e⟩ | ⟨h1, h2, h3, e⟩ | ⟨h1, h2, h3, e⟩
    · rw [e]
      simp [h1]
    · rw [e]
      simp [h2]
    · rw [e]
      simp [h3]
    · rw [e]
      simp [h1, h2, h3]
  · intro d f hd hu
    simp [window_render_frame, hd, hu, hfmt]
  · intro frames
    exact render_frames_ledger bits (some w) frames []

/-- Witness of C8: three consecutive JPEG frames, the first decoded and shown,
the second failing to decode, the third failing at texture creation. -/
theorem sdl_render_jpeg_releases_all_witness :
    ledger [] (render_frames 64 (some (window.mk FRAME_FORMAT_JPEG 11 12 0))
      [(Decoder.mk 21 22 23, some (frame.mk 7 100 640 480)),
       (Decoder.mk 31 0 0, some (frame.mk 7 100 640 480)),
       (Decoder.mk 41 42 0, some (frame.mk 7 100 640 480))]) = some [] :=
  (sdl_render_jpeg_releases_all 64 (window.mk FRAME_FORMAT_JPEG 11 12 0) rfl).2.2.2.2 _

/-! ## Rollback inside `start_window` -/

/-- C4 (fails on the code): for a valid 640x480 JPEG request where `SDL_Init`
succeeds and `IMG_Init` reports no JPEG support, `start_window` returns NULL
after allocating and freeing its block, and `SDL_Quit` is never called.  On
the sibling path, where `IMG_Init` succeeds and window creation fails, the
rollback does call `IMG_Quit` and then `SDL_Quit`. -/
theorem start_window_img_init_failure_skips_quit :
    start_window FRAME_FORMAT_IS_SUPPORTED (Native.mk 0 0 11 12 13)
        (window.mk FRAME_FORMAT_JPEG 0 0 0) 640 480 FRAME_FORMAT_JPEG
      = (none, [Call.ec_malloc, Call.SDL_Init 0, Call.IMG_Init 0, Call.free]) ∧
    Call.SDL_Quit ∉ (start_window FRAME_FORMAT_IS_SUPPORTED (Native.mk 0 0 11 12 13)
        (window.mk FRAME_FORMAT_JPEG 0 0 0) 640 480 FRAME_FORMAT_JPEG).2 ∧
    start_window FRAME_FORMAT_IS_SUPPORTED (Native.mk 0 1 0 12 13)
        (window.mk FRAME_FORMAT_JPEG 0 0 0) 640 480 FRAME_FORMAT_JPEG
      = (none, [Call.ec_malloc, Call.SDL_Init 0, Call.IMG_Init 1,
                Call.SDL_CreateWindow 640 480 0, Call.IMG_Quit, Call.SDL_Quit, Call.free]) := by
  refine ⟨by decide, by decide, by decide⟩

/-- C10 (fails on the code): the fields `renderer` and `texture` of the block
are first written after the window, respectively the renderer, was created.
With a block that reads non-null in those fields (handles 92 and 93, never
returned by any call), a failed window creation makes the rollback destroy
texture 93 and renderer 92, and a failed renderer creation makes it destroy
texture 93. -/
theorem start_window_rollback_releases_stale_handles :
    start_window FRAME_FORMAT_IS_SUPPORTED (Native.mk 0 0 0 12 13)
        (window.mk (FRAME_FORMAT_OTHER 9) 91 92 93) 640 480 FRAME_FORMAT_YUYV
      = (none, [Call.ec_malloc, Call.SDL_Init 0, Call.SDL_CreateWindow 640 480 0,
                Call.SDL_DestroyTexture 93, Call.SDL_DestroyRenderer 92,
                Call.SDL_Quit, Call.free]) ∧
    start_window FRAME_FORMAT_IS_SUPPORTED (Native.mk 0 0 11 0 13)
        (window.mk (FRAME_FORMAT_OTHER 9) 91 92 93) 640 480 FRAME_FORMAT_YUYV
      = (none, [Call.ec_malloc, Call.SDL_Init 0, Call.SDL_CreateWindow 640 480 11,
                Call.SDL_CreateRenderer 11 0,
                Call.SDL_DestroyTexture 93, Call.SDL_DestroyWindow 11,
                Call.SDL_Quit, Call.free]) := by
  refine ⟨by decide, by decide⟩

end SdlWindow
